import Mathlib

/-!
Verification of the autodarts local-API client (`src/main.py`): a shallow
embedding of the message decoding, event dispatch, and control-client logic,
together with theorems settling the specification claims.

Conventions of the embedding:
  * Python `Enum` classes become Lean inductives; `EnumName(s)` value lookup
    becomes `ofString`, returning `none` where Python raises `ValueError`.
  * A raw JSON frame is modelled structurally: each field that may be absent
    on the wire is an `Option`, mirroring the presence check `"k" in data`
    and the raising access `data["k"]` (a `KeyError` becomes
    `DecodeError.missingField`).
  * `Message.__init__` becomes `Message.init : RawData → Except DecodeError
    Message`.  When `"throws"` is absent the Python constructor never assigns
    `self.throws`, so `Message.throws` is an `Option (List Throw)`: `none`
    models the unassigned attribute (accessing it raises `AttributeError`).
  * The body of `on_message` after JSON parsing becomes `on_message`; the
    `print` calls become constructors of `Output`.
  * `requests.put`/`requests.post` calls become values recording the issued
    request; the response is supplied by an oracle that the functions ignore,
    mirroring the fact that the Python code discards the `Response` object.
-/

/-- The possible event types that the board can send (`EventType` in the
source, 11 values). -/
inductive EventType where
  | STARTING
  | STARTED
  | STOPPING
  | STOPPED
  | THROW_DETECTED
  | TAKEOUT_STARTED
  | TAKEOUT_FINISHED
  | MANUAL_RESET
  | CALIBRATION_STARTED
  | CALIBRATION_FINISHED
  | CALIBRATION_FAILED
deriving DecidableEq, Repr

/-- The wire string of each `EventType` member (its Python `value`). -/
def EventType.value : EventType → String
  | .STARTING => "Starting"
  | .STARTED => "Started"
  | .STOPPING => "Stopping"
  | .STOPPED => "Stopped"
  | .THROW_DETECTED => "Throw detected"
  | .TAKEOUT_STARTED => "Takeout started"
  | .TAKEOUT_FINISHED => "Takeout finished"
  | .MANUAL_RESET => "Manual reset"
  | .CALIBRATION_STARTED => "Calibration started"
  | .CALIBRATION_FINISHED => "Calibration finished"
  | .CALIBRATION_FAILED => "Calibration failed"

/-- Python `EventType(s)`: lookup of an enum member by value; `none` models
the `ValueError` raised on an unrecognized string. -/
def EventType.ofString (s : String) : Option EventType :=
  if s = "Starting" then some .STARTING
  else if s = "Started" then some .STARTED
  else if s = "Stopping" then some .STOPPING
  else if s = "Stopped" then some .STOPPED
  else if s = "Throw detected" then some .THROW_DETECTED
  else if s = "Takeout started" then some .TAKEOUT_STARTED
  else if s = "Takeout finished" then some .TAKEOUT_FINISHED
  else if s = "Manual reset" then some .MANUAL_RESET
  else if s = "Calibration started" then some .CALIBRATION_STARTED
  else if s = "Calibration finished" then some .CALIBRATION_FINISHED
  else if s = "Calibration failed" then some .CALIBRATION_FAILED
  else none

/-- All members of `EventType`, in source order. -/
def EventType.all : List EventType :=
  [.STARTING, .STARTED, .STOPPING, .STOPPED, .THROW_DETECTED,
   .TAKEOUT_STARTED, .TAKEOUT_FINISHED, .MANUAL_RESET,
   .CALIBRATION_STARTED, .CALIBRATION_FINISHED, .CALIBRATION_FAILED]

/-- The possible status types that the board can have (`StatusType` in the
source, 7 values). -/
inductive StatusType where
  | STARTING
  | STOPPING
  | STOPPED
  | THROW
  | TAKEOUT
  | TAKEOUT_IN_PROGRESS
  | CALIBRATING
deriving DecidableEq, Repr

/-- The wire string of each `StatusType` member (its Python `value`). -/
def StatusType.value : StatusType → String
  | .STARTING => "Starting"
  | .STOPPING => "Stopping"
  | .STOPPED => "Stopped"
  | .THROW => "Throw"
  | .TAKEOUT => "Takeout"
  | .TAKEOUT_IN_PROGRESS => "Takeout in progress"
  | .CALIBRATING => "Calibrating"

/-- Python `StatusType(s)`: lookup by value; `none` models `ValueError`. -/
def StatusType.ofString (s : String) : Option StatusType :=
  if s = "Starting" then some .STARTING
  else if s = "Stopping" then some .STOPPING
  else if s = "Stopped" then some .STOPPED
  else if s = "Throw" then some .THROW
  else if s = "Takeout" then some .TAKEOUT
  else if s = "Takeout in progress" then some .TAKEOUT_IN_PROGRESS
  else if s = "Calibrating" then some .CALIBRATING
  else none

/-- All members of `StatusType`, in source order. -/
def StatusType.all : List StatusType :=
  [.STARTING, .STOPPING, .STOPPED, .THROW, .TAKEOUT,
   .TAKEOUT_IN_PROGRESS, .CALIBRATING]

/-- The possible beds of a segment (`SegmentBed` in the source, 5 values). -/
inductive SegmentBed where
  | SINGLE_INNER
  | SINGLE_OUTER
  | DOUBLE
  | TRIPLE
  | OUTSIDE
deriving DecidableEq, Repr

/-- The wire string of each `SegmentBed` member (its Python `value`). -/
def SegmentBed.value : SegmentBed → String
  | .SINGLE_INNER => "SingleInner"
  | .SINGLE_OUTER => "SingleOuter"
  | .DOUBLE => "Double"
  | .TRIPLE => "Triple"
  | .OUTSIDE => "Outside"

/-- Python `SegmentBed(s)`: lookup by value; `none` models `ValueError`. -/
def SegmentBed.ofString (s : String) : Option SegmentBed :=
  if s = "SingleInner" then some .SINGLE_INNER
  else if s = "SingleOuter" then some .SINGLE_OUTER
  else if s = "Double" then some .DOUBLE
  else if s = "Triple" then some .TRIPLE
  else if s = "Outside" then some .OUTSIDE
  else none

/-- All members of `SegmentBed`, in source order. -/
def SegmentBed.all : List SegmentBed :=
  [.SINGLE_INNER, .SINGLE_OUTER, .DOUBLE, .TRIPLE, .OUTSIDE]

/-- The segment of a dart board (`Segment` in the source). -/
structure Segment where
  bed : SegmentBed
  multiplier : Int
  number : Int
  name : String
deriving DecidableEq, Repr

/-- A throw that was detected by the board (`Throw` in the source). -/
structure Throw where
  segment : Segment
deriving DecidableEq, Repr

/-- The decoded message (`Message` in the source).  `throws = none` models a
`Message` object on which `self.throws` was never assigned (the `"throws"`
key was absent), so that reading the attribute raises `AttributeError`. -/
structure Message where
  connected : Bool
  running : Bool
  status : StatusType
  event : EventType
  num_throws : Int
  throws : Option (List Throw)
deriving DecidableEq, Repr

/-- Decode errors: `missingField k` models Python `KeyError(k)`; the three
unknown-value errors model the `ValueError` raised by enum lookup on the
named field. -/
inductive DecodeError where
  | missingField (field : String)
  | unknownStatus (s : String)
  | unknownEvent (s : String)
  | unknownBed (s : String)
deriving DecidableEq, Repr

/-- Runtime errors dispatch can raise: `attributeError "throws"` models
reading the never-assigned `throws` attribute; `indexError` models
`throws[-1]` on an empty list. -/
inductive RuntimeError where
  | attributeError (attr : String)
  | indexError
deriving DecidableEq, Repr

/-- The raw wire form of a throw's `segment` object: each key is `Option`al
because the decoder accesses them with raising `[...]` lookups. -/
structure RawSegment where
  bed : Option String
  multiplier : Option Int
  number : Option Int
  name : Option String
deriving DecidableEq, Repr

/-- The raw wire form of one entry of the `throws` array. -/
structure RawThrow where
  segment : Option RawSegment
deriving DecidableEq, Repr

/-- The raw wire form of the envelope's `data` object. -/
structure RawData where
  connected : Option Bool
  running : Option Bool
  status : Option String
  event : Option String
  numThrows : Option Int
  throws : Option (List RawThrow)
deriving DecidableEq, Repr

/-- The raw envelope: `type` discriminant and nested `data` object. -/
structure RawFrame where
  type : Option String
  data : Option RawData
deriving DecidableEq, Repr

/-- Decoding of one throw entry, mirroring the comprehension body
`Throw(Segment(SegmentBed(t["segment"]["bed"]), t["segment"]["multiplier"],
t["segment"]["number"], t["segment"]["name"]))` with Python's left-to-right
evaluation of the lookups. -/
def decodeThrow (t : RawThrow) : Except DecodeError Throw :=
  match t.segment with
  | none => .error (.missingField "segment")
  | some seg =>
    match seg.bed with
    | none => .error (.missingField "bed")
    | some bedStr =>
      match SegmentBed.ofString bedStr with
      | none => .error (.unknownBed bedStr)
      | some bed =>
        match seg.multiplier with
        | none => .error (.missingField "multiplier")
        | some multiplier =>
          match seg.number with
          | none => .error (.missingField "number")
          | some number =>
            match seg.name with
            | none => .error (.missingField "name")
            | some name => .ok ⟨⟨bed, multiplier, number, name⟩⟩

/-- Decoding of the whole `throws` array: the list comprehension evaluates
entries in order and the first raising entry aborts the construction. -/
def decodeThrows : List RawThrow → Except DecodeError (List Throw)
  | [] => .ok []
  | t :: ts =>
    match decodeThrow t with
    | .error e => .error e
    | .ok th =>
      match decodeThrows ts with
      | .error e => .error e
      | .ok ths => .ok (th :: ths)

/-- `Message.__init__(self, data)`: sequential raising lookups of
`connected`, `running`, `status`, `event`, `numThrows`, then the guarded
`if "throws" in data` block.  When the key is absent, `self.throws` is left
unassigned (`throws := none`). -/
def Message.init (data : RawData) : Except DecodeError Message :=
  match data.connected with
  | none => .error (.missingField "connected")
  | some connected =>
    match data.running with
    | none => .error (.missingField "running")
    | some running =>
      match data.status with
      | none => .error (.missingField "status")
      | some statusStr =>
        match StatusType.ofString statusStr with
        | none => .error (.unknownStatus statusStr)
        | some status =>
          match data.event with
          | none => .error (.missingField "event")
          | some eventStr =>
            match EventType.ofString eventStr with
            | none => .error (.unknownEvent eventStr)
            | some event =>
              match data.numThrows with
              | none => .error (.missingField "numThrows")
              | some num_throws =>
                match data.throws with
                | none =>
                    .ok ⟨connected, running, status, event, num_throws, none⟩
                | some rawThrows =>
                    match decodeThrows rawThrows with
                    | .error e => .error e
                    | .ok ts =>
                        .ok ⟨connected, running, status, event, num_throws,
                             some ts⟩

/-- One line printed by `on_message`: either the five-field throw record or
the two-field status record. -/
inductive Output where
  | throwLine (event : EventType) (status : StatusType) (numThrows : Int)
      (segmentName : String) (score : Int)
  | statusLine (event : EventType) (status : StatusType)
deriving DecidableEq, Repr

/-- The branch of `on_message` below the `Message` construction.  The
`THROW_DETECTED` branch reads `msg.throws[len(msg.throws) - 1]`: an
unassigned attribute raises `AttributeError`, and on an empty list the index
is `-1`, which raises `IndexError`; on a non-empty list it is the last
element. -/
def dispatch (msg : Message) : Except RuntimeError Output :=
  if msg.event = EventType.THROW_DETECTED then
    match msg.throws with
    | none => .error (.attributeError "throws")
    | some ts =>
      match ts.getLast? with
      | none => .error .indexError
      | some thr =>
        .ok (.throwLine msg.event msg.status msg.num_throws thr.segment.name
              (thr.segment.multiplier * thr.segment.number))
  else
    .ok (.statusLine msg.event msg.status)

/-- The four possible outcomes of the `on_message` handler on one frame. -/
inductive HandlerResult where
  | ignored
  | output (o : Output)
  | decodeFailed (e : DecodeError)
  | runtimeFailed (e : RuntimeError)
deriving DecidableEq, Repr

/-- `on_message(ws, message)` after `json.loads`: the `type` discriminant
check, the `data["data"]` lookup, `Message` construction, and dispatch. -/
def on_message (frame : RawFrame) : HandlerResult :=
  match frame.type with
  | none => .decodeFailed (.missingField "type")
  | some ty =>
    if ty ≠ "state" then .ignored
    else
      match frame.data with
      | none => .decodeFailed (.missingField "data")
      | some d =>
        match Message.init d with
        | .error e => .decodeFailed e
        | .ok msg =>
          match dispatch msg with
          | .error e => .runtimeFailed e
          | .ok o => .output o

/-- The IP address or hostname of the board client (`API_URL`). -/
def API_URL : String := "localhost"

/-- The port of the board client (`API_PORT`). -/
def API_PORT : String := "3180"

/-- An outbound HTTP request as issued by the `requests` calls. -/
structure HttpRequest where
  method : String
  url : String
deriving DecidableEq, Repr

/-- A transport-level response; the control client never reads it. -/
structure HttpResponse where
  status_code : Int
  text : String
deriving DecidableEq, Repr

/-- `start_board()`: one `requests.put` on `/api/start`.  The response
oracle stands for the transport; its answer is discarded, and the returned
list records every request issued by the call. -/
def start_board (api_url api_port : String)
    (respond : HttpRequest → HttpResponse) : List HttpRequest :=
  let req : HttpRequest :=
    ⟨"PUT", "http://" ++ api_url ++ ":" ++ api_port ++ "/api/start"⟩
  let _resp := respond req
  [req]

/-- `stop_board()`: one `requests.put` on `/api/stop`, response discarded. -/
def stop_board (api_url api_port : String)
    (respond : HttpRequest → HttpResponse) : List HttpRequest :=
  let req : HttpRequest :=
    ⟨"PUT", "http://" ++ api_url ++ ":" ++ api_port ++ "/api/stop"⟩
  let _resp := respond req
  [req]

/-- `reset_board()`: one `requests.post` on `/api/reset`, response
discarded. -/
def reset_board (api_url api_port : String)
    (respond : HttpRequest → HttpResponse) : List HttpRequest :=
  let req : HttpRequest :=
    ⟨"POST", "http://" ++ api_url ++ ":" ++ api_port ++ "/api/reset"⟩
  let _resp := respond req
  [req]

/-! ## Helper lemmas shared between claim theorems -/

/-- Dispatch equation for a throw-detected message with a non-empty assigned
throws list: the last element drives the emitted record. -/
theorem dispatch_throw_line (msg : Message) (ts : List Throw)
    (h1 : msg.event = EventType.THROW_DETECTED) (h2 : msg.throws = some ts)
    (h3 : ts ≠ []) :
    dispatch msg = .ok (.throwLine msg.event msg.status msg.num_throws
      (ts.getLast h3).segment.name
      ((ts.getLast h3).segment.multiplier * (ts.getLast h3).segment.number)) := by
  have h4 : ts.getLast? = some (ts.getLast h3) :=
    List.getLast?_eq_getLast_of_ne_nil h3
  simp [dispatch, h1, h2, h4]

/-- A failing entry after a succeeding prefix makes the whole throws-array
decode fail with that entry's error. -/
theorem decodeThrows_append_error (pre : List RawThrow) (pts : List Throw)
    (t : RawThrow) (rest : List RawThrow) (e : DecodeError)
    (h1 : decodeThrows pre = .ok pts) (h2 : decodeThrow t = .error e) :
    decodeThrows (pre ++ t :: rest) = .error e := by
  induction pre generalizing pts with
  | nil => simp [decodeThrows, h2]
  | cons p ps ih =>
    cases hp : decodeThrow p with
    | error e2 => simp [decodeThrows, hp] at h1
    | ok th =>
      cases hps : decodeThrows ps with
      | error e2 => simp [decodeThrows, hp, hps] at h1
      | ok ths => simp [decodeThrows, hp, ih ths hps]

/-- A failing throws array makes `Message.init` fail with its error, once the
scalar fields decode. -/
theorem init_throws_error (d : RawData) (c r : Bool) (ss es : String)
    (st : StatusType) (ev : EventType) (n : Int) (rts : List RawThrow)
    (e : DecodeError) (h1 : d.connected = some c) (h2 : d.running = some r)
    (h3 : d.status = some ss) (h4 : StatusType.ofString ss = some st)
    (h5 : d.event = some es) (h6 : EventType.ofString es = some ev)
    (h7 : d.numThrows = some n) (h8 : d.throws = some rts)
    (h9 : decodeThrows rts = .error e) :
    Message.init d = .error e := by
  simp [Message.init, h1, h2, h3, h4, h5, h6, h7, h8, h9]

/-! ## Claim theorems -/

/-- C1: for every decoded Message with `event = ThrowDetected` and a
non-empty throws sequence, dispatch takes the segment of the last element of
`throws` and computes `score = multiplier * number` of that segment, emitting
the record `{event, status, numThrows, segmentName, score}`. -/
theorem c1_throw_detected_dispatch (msg : Message) (ts : List Throw)
    (h1 : msg.event = EventType.THROW_DETECTED) (h2 : msg.throws = some ts)
    (h3 : ts ≠ []) :
    dispatch msg = .ok (.throwLine msg.event msg.status msg.num_throws
      (ts.getLast h3).segment.name
      ((ts.getLast h3).segment.multiplier * (ts.getLast h3).segment.number)) :=
  dispatch_throw_line msg ts h1 h2 h3

/-- C1 witness: a two-throw message scores from the last throw only
(`T20`, score 60), not the earlier `S5`. -/
theorem c1_witness :
    dispatch ⟨true, true, .THROW, .THROW_DETECTED, 2,
        some [⟨⟨.SINGLE_OUTER, 1, 5, "S5"⟩⟩, ⟨⟨.TRIPLE, 3, 20, "T20"⟩⟩]⟩ =
      .ok (.throwLine .THROW_DETECTED .THROW 2 "T20" 60) := by
  have h := c1_throw_detected_dispatch
    ⟨true, true, .THROW, .THROW_DETECTED, 2,
      some [⟨⟨.SINGLE_OUTER, 1, 5, "S5"⟩⟩, ⟨⟨.TRIPLE, 3, 20, "T20"⟩⟩]⟩
    [⟨⟨.SINGLE_OUTER, 1, 5, "S5"⟩⟩, ⟨⟨.TRIPLE, 3, 20, "T20"⟩⟩]
    rfl rfl (List.cons_ne_nil _ _)
  simpa [List.getLast] using h

/-- C4: a frame whose envelope `type` is not `"state"` is ignored: no
Message is built and no output record is produced. -/
theorem c4_non_state_ignored (frame : RawFrame) (ty : String)
    (h1 : frame.type = some ty) (h2 : ty ≠ "state") :
    on_message frame = .ignored := by
  simp [on_message, h1, h2]

/-- C4 witness: a `"ping"` frame is ignored. -/
theorem c4_witness : on_message ⟨some "ping", none⟩ = .ignored :=
  c4_non_state_ignored ⟨some "ping", none⟩ "ping" rfl (by decide)

/-- C7: for every decoded Message whose event is not `ThrowDetected`,
dispatch emits only `{event, status}` and never reads the throws field —
in particular it succeeds even when `throws` is the unassigned attribute
(`none`), which would raise if accessed. -/
theorem c7_non_throw_detected (msg : Message)
    (h : msg.event ≠ EventType.THROW_DETECTED) :
    dispatch msg = .ok (.statusLine msg.event msg.status) := by
  simp [dispatch, h]

/-- C7 witness: a `Started` message with the throws attribute unassigned
(access would raise) dispatches to the two-field record without error. -/
theorem c7_witness :
    dispatch ⟨true, true, .STOPPED, .STARTED, 0, none⟩ =
      .ok (.statusLine .STARTED .STOPPED) :=
  c7_non_throw_detected ⟨true, true, .STOPPED, .STARTED, 0, none⟩ (by decide)

/-- C8: dispatch never inspects `connected` or `running`: changing either
flag leaves the dispatch result literally unchanged. -/
theorem c8_dispatch_ignores_connected_running (msg : Message) (c r : Bool) :
    dispatch { msg with connected := c, running := r } = dispatch msg := rfl

/-- C9: `reset_board` issues exactly one POST to `/api/reset` on the
configured host and port, `start_board` one PUT to `/api/start`, and
`stop_board` one PUT to `/api/stop`; none of the three depends on the
transport's response. -/
theorem c9_control_requests (u p : String)
    (respond respond2 : HttpRequest → HttpResponse) :
    reset_board u p respond =
      [⟨"POST", "http://" ++ u ++ ":" ++ p ++ "/api/reset"⟩] ∧
    start_board u p respond =
      [⟨"PUT", "http://" ++ u ++ ":" ++ p ++ "/api/start"⟩] ∧
    stop_board u p respond =
      [⟨"PUT", "http://" ++ u ++ ":" ++ p ++ "/api/stop"⟩] ∧
    reset_board u p respond = reset_board u p respond2 ∧
    start_board u p respond = start_board u p respond2 ∧
    stop_board u p respond = stop_board u p respond2 :=
  ⟨rfl, rfl, rfl, rfl, rfl, rfl⟩

/-- C2 counterexample: a state-frame data object without a `throws` key (and
`numThrows = 0`) decodes without error, but the resulting Message has the
throws attribute unassigned (`none`), not an empty list — and the program's
own dispatch observably distinguishes the two (`AttributeError` versus
`IndexError` on a throw-detected event). -/
theorem c2_counterexample :
    Message.init ⟨some true, some true, some "Throw", some "Throw detected",
        some 0, none⟩ =
      .ok ⟨true, true, .THROW, .THROW_DETECTED, 0, none⟩ ∧
    (⟨true, true, .THROW, .THROW_DETECTED, 0, none⟩ : Message).throws ≠
      some [] ∧
    dispatch ⟨true, true, .THROW, .THROW_DETECTED, 0, none⟩ ≠
      dispatch ⟨true, true, .THROW, .THROW_DETECTED, 0, some []⟩ := by
  refine ⟨by simp [Message.init, StatusType.ofString, EventType.ofString],
    by simp, by simp [dispatch]⟩

/-- C2 amended: a state-frame data object with all required scalar fields
present and valid and no `throws` key decodes without error, and the
resulting Message carries the unassigned throws attribute (`none`, raising
when accessed) rather than an empty sequence, so absence and emptiness are
observably different to a caller that reads `throws`. -/
theorem c2_absent_throws_decodes (c r : Bool) (ss es : String)
    (st : StatusType) (ev : EventType) (n : Int)
    (h1 : StatusType.ofString ss = some st)
    (h2 : EventType.ofString es = some ev) :
    Message.init ⟨some c, some r, some ss, some es, some n, none⟩ =
      .ok ⟨c, r, st, ev, n, none⟩ := by
  simp [Message.init, h1, h2]

/-- C2 witness: the concrete `numThrows = 0`, no-`throws` frame data decodes
to the Message with the unassigned throws attribute. -/
theorem c2_witness :
    Message.init ⟨some false, some true, some "Stopped", some "Stopped",
        some 0, none⟩ =
      .ok ⟨false, true, .STOPPED, .STOPPED, 0, none⟩ :=
  c2_absent_throws_decodes false true "Stopped" "Stopped" .STOPPED .STOPPED 0
    rfl rfl

/-- C3: an unrecognized `status`, `event`, or segment `bed` string always
fails decoding with the corresponding error (`unknownStatus`,
`unknownEvent`, `unknownBed`) and is never mapped to a default; the last two
conjuncts propagate a failing throw entry anywhere in the array up to
`Message.init`. -/
theorem c3_unknown_enum_fails :
    (∀ (d : RawData) (c r : Bool) (s : String),
      d.connected = some c → d.running = some r → d.status = some s →
      StatusType.ofString s = none →
      Message.init d = .error (.unknownStatus s)) ∧
    (∀ (d : RawData) (c r : Bool) (ss s : String) (st : StatusType),
      d.connected = some c → d.running = some r → d.status = some ss →
      StatusType.ofString ss = some st → d.event = some s →
      EventType.ofString s = none →
      Message.init d = .error (.unknownEvent s)) ∧
    (∀ (t : RawThrow) (seg : RawSegment) (s : String),
      t.segment = some seg → seg.bed = some s →
      SegmentBed.ofString s = none →
      decodeThrow t = .error (.unknownBed s)) ∧
    (∀ (pre : List RawThrow) (pts : List Throw) (t : RawThrow)
       (rest : List RawThrow) (e : DecodeError),
      decodeThrows pre = .ok pts → decodeThrow t = .error e →
      decodeThrows (pre ++ t :: rest) = .error e) ∧
    (∀ (d : RawData) (c r : Bool) (ss es : String) (st : StatusType)
       (ev : EventType) (n : Int) (rts : List RawThrow) (e : DecodeError),
      d.connected = some c → d.running = some r → d.status = some ss →
      StatusType.ofString ss = some st → d.event = some es →
      EventType.ofString es = some ev → d.numThrows = some n →
      d.throws = some rts → decodeThrows rts = .error e →
      Message.init d = .error e) := by
  refine ⟨?_, ?_, ?_, ?_, ?_⟩
  · intro d c r s h1 h2 h3 h4
    simp [Message.init, h1, h2, h3, h4]
  · intro d c r ss s st h1 h2 h3 h4 h5 h6
    simp [Message.init, h1, h2, h3, h4, h5, h6]
  · intro t seg s h1 h2 h3
    simp [decodeThrow, h1, h2, h3]
  · intro pre pts t rest e h1 h2
    exact decodeThrows_append_error pre pts t rest e h1 h2
  · intro d c r ss es st ev n rts e h1 h2 h3 h4 h5 h6 h7 h8 h9
    exact init_throws_error d c r ss es st ev n rts e h1 h2 h3 h4 h5 h6 h7 h8 h9

/-- C3 witness: concrete unknown strings fail with the matching errors, and
an unknown bed inside the second throw entry fails the whole decode. -/
theorem c3_witness :
    Message.init ⟨some true, some true, some "Paused", some "Started",
        some 0, none⟩ = .error (.unknownStatus "Paused") ∧
    Message.init ⟨some true, some true, some "Throw", some "Warp detected",
        some 0, none⟩ = .error (.unknownEvent "Warp detected") ∧
    decodeThrow ⟨some ⟨some "Quadruple", some 4, some 20, some "Q20"⟩⟩ =
      .error (.unknownBed "Quadruple") ∧
    Message.init ⟨some true, some true, some "Throw", some "Throw detected",
        some 2, some [⟨some ⟨some "Triple", some 3, some 20, some "T20"⟩⟩,
                      ⟨some ⟨some "Quadruple", some 4, some 20, some "Q20"⟩⟩]⟩ =
      .error (.unknownBed "Quadruple") := by
  refine ⟨c3_unknown_enum_fails.1 _ true true "Paused" rfl rfl rfl
      (by decide),
    c3_unknown_enum_fails.2.1 _ true true "Throw" "Warp detected" .THROW
      rfl rfl rfl (by decide) rfl (by decide), ?_, ?_⟩
  · exact c3_unknown_enum_fails.2.2.1 _
      ⟨some "Quadruple", some 4, some 20, some "Q20"⟩ "Quadruple" rfl rfl
      (by decide)
  · refine c3_unknown_enum_fails.2.2.2.2 _ true true "Throw" "Throw detected"
      .THROW .THROW_DETECTED 2 _ (.unknownBed "Quadruple")
      rfl rfl rfl (by decide) rfl (by decide) rfl rfl ?_
    exact c3_unknown_enum_fails.2.2.2.1 [⟨some ⟨some "Triple", some 3,
        some 20, some "T20"⟩⟩] [⟨⟨.TRIPLE, 3, 20, "T20"⟩⟩]
      ⟨some ⟨some "Quadruple", some 4, some 20, some "Q20"⟩⟩ [] _
      (by simp [decodeThrows, decodeThrow, SegmentBed.ofString])
      (c3_unknown_enum_fails.2.2.1 _
        ⟨some "Quadruple", some 4, some 20, some "Q20"⟩ "Quadruple"
        rfl rfl (by decide))

set_option maxHeartbeats 1600000 in
/-- C5: each enumeration's string-to-variant mapping is a bijection over its
closed set: decoding a member's wire string yields that member, a successful
decode round-trips back to the decoded string, and the three member lists
are exhaustive and duplicate-free with 11, 7, and 5 elements. -/
theorem c5_enum_bijection :
    (∀ e : EventType, EventType.ofString e.value = some e) ∧
    (∀ (s : String) (e : EventType),
      EventType.ofString s = some e → e.value = s) ∧
    (∀ t : StatusType, StatusType.ofString t.value = some t) ∧
    (∀ (s : String) (t : StatusType),
      StatusType.ofString s = some t → t.value = s) ∧
    (∀ b : SegmentBed, SegmentBed.ofString b.value = some b) ∧
    (∀ (s : String) (b : SegmentBed),
      SegmentBed.ofString s = some b → b.value = s) ∧
    EventType.all.length = 11 ∧ EventType.all.Nodup ∧
    (∀ e : EventType, e ∈ EventType.all) ∧
    StatusType.all.length = 7 ∧ StatusType.all.Nodup ∧
    (∀ t : StatusType, t ∈ StatusType.all) ∧
    SegmentBed.all.length = 5 ∧ SegmentBed.all.Nodup ∧
    (∀ b : SegmentBed, b ∈ SegmentBed.all) := by
  refine ⟨?_, ?_, ?_, ?_, ?_, ?_, rfl, by decide, ?_, rfl, by decide, ?_,
    rfl, by decide, ?_⟩
  · intro e; cases e <;> decide
  · intro s e h
    unfold EventType.ofString at h
    split_ifs at h <;> simp_all [EventType.value] <;> subst h <;> rfl
  · intro t; cases t <;> decide
  · intro s t h
    unfold StatusType.ofString at h
    split_ifs at h <;> simp_all [StatusType.value] <;> subst h <;> rfl
  · intro b; cases b <;> decide
  · intro s b h
    unfold SegmentBed.ofString at h
    split_ifs at h <;> simp_all [SegmentBed.value] <;> subst h <;> rfl
  · intro e; cases e <;> simp [EventType.all]
  · intro t; cases t <;> simp [StatusType.all]
  · intro b; cases b <;> simp [SegmentBed.all]

/-- C5 witness: each round-trip direction exercised at a concrete member. -/
theorem c5_witness :
    EventType.ofString "Throw detected" = some .THROW_DETECTED ∧
    EventType.value .STARTED = "Started" ∧
    StatusType.ofString "Takeout in progress" = some .TAKEOUT_IN_PROGRESS ∧
    StatusType.value .THROW = "Throw" ∧
    SegmentBed.ofString "SingleInner" = some .SINGLE_INNER ∧
    SegmentBed.value .TRIPLE = "Triple" :=
  ⟨c5_enum_bijection.1 .THROW_DETECTED,
   c5_enum_bijection.2.1 "Started" .STARTED rfl,
   c5_enum_bijection.2.2.1 .TAKEOUT_IN_PROGRESS,
   c5_enum_bijection.2.2.2.1 "Throw" .THROW rfl,
   c5_enum_bijection.2.2.2.2.1 .SINGLE_INNER,
   c5_enum_bijection.2.2.2.2.2.1 "Triple" .TRIPLE rfl⟩

/-- C6: a missing required field at any level fails decoding with
`missingField` naming that field: the envelope's `data`; `connected`,
`running`, `status`, `event`, `numThrows` in the data object; and `segment`,
`bed`, `multiplier`, `number`, `name` inside a throw entry (the final two
conjuncts propagate a failing throw entry anywhere in the array up to
`Message.init`). -/
theorem c6_missing_field_fails :
    (∀ frame : RawFrame, frame.type = some "state" → frame.data = none →
      on_message frame = .decodeFailed (.missingField "data")) ∧
    (∀ d : RawData, d.connected = none →
      Message.init d = .error (.missingField "connected")) ∧
    (∀ (d : RawData) (c : Bool), d.connected = some c → d.running = none →
      Message.init d = .error (.missingField "running")) ∧
    (∀ (d : RawData) (c r : Bool), d.connected = some c →
      d.running = some r → d.status = none →
      Message.init d = .error (.missingField "status")) ∧
    (∀ (d : RawData) (c r : Bool) (ss : String) (st : StatusType),
      d.connected = some c → d.running = some r → d.status = some ss →
      StatusType.ofString ss = some st → d.event = none →
      Message.init d = .error (.missingField "event")) ∧
    (∀ (d : RawData) (c r : Bool) (ss es : String) (st : StatusType)
       (ev : EventType),
      d.connected = some c → d.running = some r → d.status = some ss →
      StatusType.ofString ss = some st → d.event = some es →
      EventType.ofString es = some ev → d.numThrows = none →
      Message.init d = .error (.missingField "numThrows")) ∧
    (∀ t : RawThrow, t.segment = none →
      decodeThrow t = .error (.missingField "segment")) ∧
    (∀ (t : RawThrow) (seg : RawSegment), t.segment = some seg →
      seg.bed = none → decodeThrow t = .error (.missingField "bed")) ∧
    (∀ (t : RawThrow) (seg : RawSegment) (bs : String) (b : SegmentBed),
      t.segment = some seg → seg.bed = some bs →
      SegmentBed.ofString bs = some b → seg.multiplier = none →
      decodeThrow t = .error (.missingField "multiplier")) ∧
    (∀ (t : RawThrow) (seg : RawSegment) (bs : String) (b : SegmentBed)
       (m : Int),
      t.segment = some seg → seg.bed = some bs →
      SegmentBed.ofString bs = some b → seg.multiplier = some m →
      seg.number = none →
      decodeThrow t = .error (.missingField "number")) ∧
    (∀ (t : RawThrow) (seg : RawSegment) (bs : String) (b : SegmentBed)
       (m num : Int),
      t.segment = some seg → seg.bed = some bs →
      SegmentBed.ofString bs = some b → seg.multiplier = some m →
      seg.number = some num → seg.name = none →
      decodeThrow t = .error (.missingField "name")) ∧
    (∀ (pre : List RawThrow) (pts : List Throw) (t : RawThrow)
       (rest : List RawThrow) (e : DecodeError),
      decodeThrows pre = .ok pts → decodeThrow t = .error e →
      decodeThrows (pre ++ t :: rest) = .error e) ∧
    (∀ (d : RawData) (c r : Bool) (ss es : String) (st : StatusType)
       (ev : EventType) (n : Int) (rts : List RawThrow) (e : DecodeError),
      d.connected = some c → d.running = some r → d.status = some ss →
      StatusType.ofString ss = some st → d.event = some es →
      EventType.ofString es = some ev → d.numThrows = some n →
      d.throws = some rts → decodeThrows rts = .error e →
      Message.init d = .error e) := by
  refine ⟨?_, ?_, ?_, ?_, ?_, ?_, ?_, ?_, ?_, ?_, ?_, ?_, ?_⟩
  · intro frame h1 h2
    simp [on_message, h1, h2]
  · intro d h1
    simp [Message.init, h1]
  · intro d c h1 h2
    simp [Message.init, h1, h2]
  · intro d c r h1 h2 h3
    simp [Message.init, h1, h2, h3]
  · intro d c r ss st h1 h2 h3 h4 h5
    simp [Message.init, h1, h2, h3, h4, h5]
  · intro d c r ss es st ev h1 h2 h3 h4 h5 h6 h7
    simp [Message.init, h1, h2, h3, h4, h5, h6, h7]
  · intro t h1
    simp [decodeThrow, h1]
  · intro t seg h1 h2
    simp [decodeThrow, h1, h2]
  · intro t seg bs b h1 h2 h3 h4
    simp [decodeThrow, h1, h2, h3, h4]
  · intro t seg bs b m h1 h2 h3 h4 h5
    simp [decodeThrow, h1, h2, h3, h4, h5]
  · intro t seg bs b m num h1 h2 h3 h4 h5 h6
    simp [decodeThrow, h1, h2, h3, h4, h5, h6]
  · intro pre pts t rest e h1 h2
    exact decodeThrows_append_error pre pts t rest e h1 h2
  · intro d c r ss es st ev n rts e h1 h2 h3 h4 h5 h6 h7 h8 h9
    exact init_throws_error d c r ss es st ev n rts e h1 h2 h3 h4 h5 h6 h7 h8 h9

/-- C6 witness: each missing-field case exercised at a concrete input,
including a missing `name` inside the second throw entry failing the whole
frame-data decode. -/
theorem c6_witness :
    on_message ⟨some "state", none⟩ = .decodeFailed (.missingField "data") ∧
    Message.init ⟨none, none, none, none, none, none⟩ =
      .error (.missingField "connected") ∧
    Message.init ⟨some true, none, none, none, none, none⟩ =
      .error (.missingField "running") ∧
    Message.init ⟨some true, some true, none, none, none, none⟩ =
      .error (.missingField "status") ∧
    Message.init ⟨some true, some true, some "Throw", none, none, none⟩ =
      .error (.missingField "event") ∧
    Message.init ⟨some true, some true, some "Throw", some "Throw detected",
        none, none⟩ = .error (.missingField "numThrows") ∧
    decodeThrow ⟨none⟩ = .error (.missingField "segment") ∧
    decodeThrow ⟨some ⟨none, none, none, none⟩⟩ =
      .error (.missingField "bed") ∧
    decodeThrow ⟨some ⟨some "Triple", none, none, none⟩⟩ =
      .error (.missingField "multiplier") ∧
    decodeThrow ⟨some ⟨some "Triple", some 3, none, none⟩⟩ =
      .error (.missingField "number") ∧
    decodeThrow ⟨some ⟨some "Triple", some 3, some 20, none⟩⟩ =
      .error (.missingField "name") ∧
    Message.init ⟨some true, some true, some "Throw", some "Throw detected",
        some 2, some [⟨some ⟨some "Triple", some 3, some 20, some "T20"⟩⟩,
                      ⟨some ⟨some "Triple", some 3, some 20, none⟩⟩]⟩ =
      .error (.missingField "name") := by
  refine ⟨c6_missing_field_fails.1 _ rfl rfl,
    c6_missing_field_fails.2.1 _ rfl,
    c6_missing_field_fails.2.2.1 _ true rfl rfl,
    c6_missing_field_fails.2.2.2.1 _ true true rfl rfl rfl,
    c6_missing_field_fails.2.2.2.2.1 _ true true "Throw" .THROW rfl rfl rfl
      (by decide) rfl,
    c6_missing_field_fails.2.2.2.2.2.1 _ true true "Throw" "Throw detected"
      .THROW .THROW_DETECTED rfl rfl rfl (by decide) rfl (by decide) rfl,
    c6_missing_field_fails.2.2.2.2.2.2.1 _ rfl,
    c6_missing_field_fails.2.2.2.2.2.2.2.1 _ ⟨none, none, none, none⟩
      rfl rfl,
    c6_missing_field_fails.2.2.2.2.2.2.2.2.1 _
      ⟨some "Triple", none, none, none⟩ "Triple" .TRIPLE rfl rfl (by decide)
      rfl,
    c6_missing_field_fails.2.2.2.2.2.2.2.2.2.1 _
      ⟨some "Triple", some 3, none, none⟩ "Triple" .TRIPLE 3 rfl rfl
      (by decide) rfl rfl,
    c6_missing_field_fails.2.2.2.2.2.2.2.2.2.2.1 _
      ⟨some "Triple", some 3, some 20, none⟩ "Triple" .TRIPLE 3 20 rfl rfl
      (by decide) rfl rfl rfl, ?_⟩
  refine c6_missing_field_fails.2.2.2.2.2.2.2.2.2.2.2.2 _ true true "Throw"
    "Throw detected" .THROW .THROW_DETECTED 2 _ (.missingField "name")
    rfl rfl rfl (by decide) rfl (by decide) rfl rfl ?_
  exact c6_missing_field_fails.2.2.2.2.2.2.2.2.2.2.2.1
    [⟨some ⟨some "Triple", some 3, some 20, some "T20"⟩⟩]
    [⟨⟨.TRIPLE, 3, 20, "T20"⟩⟩]
    ⟨some ⟨some "Triple", some 3, some 20, none⟩⟩ [] _
    (by simp [decodeThrows, decodeThrow, SegmentBed.ofString])
    (c6_missing_field_fails.2.2.2.2.2.2.2.2.2.2.1 _
      ⟨some "Triple", some 3, some 20, none⟩ "Triple" .TRIPLE 3 20 rfl rfl
      (by decide) rfl rfl rfl)

/-- C10 (implicit): the decoder never checks `numThrows` against the throws
sequence — the decoded Message stores the raw `numThrows` value, replacing
`numThrows` by any integer preserves decoding success (whether `throws` is
absent, empty, or of any length), and dispatch reports the raw stored value
in its output record, not the length of the decoded list. -/
theorem c10_num_throws_unchecked :
    (∀ (d : RawData) (n : Int) (msg : Message), d.numThrows = some n →
      Message.init d = .ok msg → msg.num_throws = n) ∧
    (∀ (d : RawData) (msg : Message) (n : Int), Message.init d = .ok msg →
      Message.init { d with numThrows := some n } =
        .ok { msg with num_throws := n }) ∧
    (∀ (msg : Message) (ts : List Throw) (h3 : ts ≠ []),
      msg.event = EventType.THROW_DETECTED → msg.throws = some ts →
      dispatch msg = .ok (.throwLine msg.event msg.status msg.num_throws
        (ts.getLast h3).segment.name
        ((ts.getLast h3).segment.multiplier *
          (ts.getLast h3).segment.number))) := by
  refine ⟨?_, ?_, ?_⟩
  · intro d n msg h1 h2
    obtain ⟨oc, orn, os, oe, onum, ot⟩ := d
    simp only at h1
    subst h1
    simp only [Message.init] at h2
    repeat' split at h2
    all_goals first
    | (injection h2 with h3; subst h3; rfl)
    | injection h2
  · intro d msg n h
    obtain ⟨oc, orn, os, oe, onum, ot⟩ := d
    simp only [Message.init] at h ⊢
    repeat' split at h
    all_goals first
    | (injection h with h3; subst h3; simp_all)
    | injection h
  · intro msg ts h3 h1 h2
    exact dispatch_throw_line msg ts h1 h2 h3

/-- C10 witness: a frame claiming `numThrows = 5` with a single-element
throws array decodes, and dispatch reports 5 — not the list length 1. -/
theorem c10_witness :
    Message.init ⟨some true, some true, some "Throw", some "Throw detected",
        some 5, some [⟨some ⟨some "Triple", some 3, some 20, some "T20"⟩⟩]⟩ =
      .ok ⟨true, true, .THROW, .THROW_DETECTED, 5,
        some [⟨⟨.TRIPLE, 3, 20, "T20"⟩⟩]⟩ ∧
    (⟨true, true, .THROW, .THROW_DETECTED, 5,
        some [⟨⟨.TRIPLE, 3, 20, "T20"⟩⟩]⟩ : Message).num_throws = 5 ∧
    dispatch ⟨true, true, .THROW, .THROW_DETECTED, 5,
        some [⟨⟨.TRIPLE, 3, 20, "T20"⟩⟩]⟩ =
      .ok (.throwLine .THROW_DETECTED .THROW 5 "T20" 60) := by
  have hinit : Message.init ⟨some true, some true, some "Throw",
      some "Throw detected", some 1,
      some [⟨some ⟨some "Triple", some 3, some 20, some "T20"⟩⟩]⟩ =
      .ok ⟨true, true, .THROW, .THROW_DETECTED, 1,
        some [⟨⟨.TRIPLE, 3, 20, "T20"⟩⟩]⟩ := by
    simp [Message.init, StatusType.ofString, EventType.ofString,
      decodeThrows, decodeThrow, SegmentBed.ofString]
  have h1 := c10_num_throws_unchecked.2.1 _ _ 5 hinit
  have h2 := c10_num_throws_unchecked.1 _ 5 _ rfl h1
  have h3 := c10_num_throws_unchecked.2.2
    ⟨true, true, .THROW, .THROW_DETECTED, 5,
      some [⟨⟨.TRIPLE, 3, 20, "T20"⟩⟩]⟩
    [⟨⟨.TRIPLE, 3, 20, "T20"⟩⟩] (List.cons_ne_nil _ _) rfl rfl
  exact ⟨h1, h2, by simpa [List.getLast] using h3⟩
